import Mathlib

/-!
Shallow embedding of `app/services/vision_engine.py` (pull-up repetition
counter).  Landmark coordinates, shoulder heights and thresholds are
modelled as rationals (the Python floats in play are exact decimals and the
code only compares them); elbow angles go through `Real.sqrt`/`Real.arccos`
and are modelled over the reals, idealizing float arithmetic as exact real
arithmetic.  Phases keep the source's string encoding: "ALTO", "BAJO",
"TRANSICION", "SIN_DETECCION".
-/

set_option maxHeartbeats 1000000

/-- One MediaPipe landmark: normalized position and a visibility score. -/
structure Landmark where
  x : ℚ
  y : ℚ
  visibility : ℚ
deriving DecidableEq, Repr

instance : Inhabited Landmark := ⟨⟨0, 0, 0⟩⟩

/-- `Repeticion` dataclass: one detected repetition. `repeticion` is the
1-based sequence number, `timestamp` the frame index at which it was
counted (the source stores the integer `frame_count` in a float field). -/
structure Repeticion where
  repeticion : ℕ
  angulo_maximo : ℝ
  angulo_minimo : ℝ
  timestamp : ℕ

/-- The mutable state of `VisionEngine`: the two thresholds stored by
`__init__` plus every field assigned in `reset`. -/
structure VisionEngine where
  umbral_alto : ℚ
  umbral_bajo : ℚ
  en_posicion_alta : Bool
  contador_repeticiones : ℕ
  frame_count : ℕ
  ultima_fase : String
  historial_repeticiones : List Repeticion
  angulo_actual : ℝ
  altura_actual : ℚ
  angulo_maximo_durante_repeticion : ℝ
  angulo_minimo_durante_repeticion : ℝ

namespace VisionEngine

/-- `reset`: reinitializes every counter field, keeping the thresholds. -/
def reset (s : VisionEngine) : VisionEngine :=
  { s with
    en_posicion_alta := false
    contador_repeticiones := 0
    frame_count := 0
    ultima_fase := "BAJO"
    historial_repeticiones := []
    angulo_actual := 0
    altura_actual := 0
    angulo_maximo_durante_repeticion := 0
    angulo_minimo_durante_repeticion := 180 }

/-- `__init__(umbral_alto, umbral_bajo)`: stores the thresholds unchanged
and calls `reset()`.  The source performs no validation of the threshold
ordering and has no failure path, so the constructor is total. -/
def init (umbral_alto umbral_bajo : ℚ) : VisionEngine :=
  reset
    { umbral_alto := umbral_alto
      umbral_bajo := umbral_bajo
      en_posicion_alta := false
      contador_repeticiones := 0
      frame_count := 0
      ultima_fase := "BAJO"
      historial_repeticiones := []
      angulo_actual := 0
      altura_actual := 0
      angulo_maximo_durante_repeticion := 0
      angulo_minimo_durante_repeticion := 180 }

end VisionEngine

/-- Core of `calcular_angulo_codo`: the elbow angle (degrees) at `codo`
between the rays toward `hombro` and `muneca`, via the clamped dot-product
formula; 180 when either ray has zero length. -/
noncomputable def anguloEntre (hombro codo muneca : Landmark) : ℝ :=
  let v1x : ℝ := ((hombro.x - codo.x : ℚ) : ℝ)
  let v1y : ℝ := ((hombro.y - codo.y : ℚ) : ℝ)
  let v2x : ℝ := ((muneca.x - codo.x : ℚ) : ℝ)
  let v2y : ℝ := ((muneca.y - codo.y : ℚ) : ℝ)
  let dot := v1x * v2x + v1y * v2y
  let mag1 := Real.sqrt (v1x ^ 2 + v1y ^ 2)
  let mag2 := Real.sqrt (v2x ^ 2 + v2y ^ 2)
  if mag1 * mag2 = 0 then 180
  else
    let cos_angle := dot / (mag1 * mag2)
    let cos_angle := max (-1) (min 1 cos_angle)
    Real.arccos cos_angle * (180 / Real.pi)

/-- `calcular_angulo_codo`: 180 when fewer than 17 landmarks, otherwise the
elbow angle from landmarks 11 (shoulder), 13 (elbow), 15 (wrist). -/
noncomputable def calcular_angulo_codo (landmarks : List Landmark) : ℝ :=
  if landmarks.length < 17 then 180
  else anguloEntre (landmarks.getD 11 default) (landmarks.getD 13 default)
    (landmarks.getD 15 default)

/-- `calcular_altura_hombros`: 0.5 when fewer than 13 landmarks, otherwise
the mean of the y coordinates of landmarks 11 and 12. -/
def calcular_altura_hombros (landmarks : List Landmark) : ℚ :=
  if landmarks.length < 13 then 1/2
  else ((landmarks.getD 11 default).y + (landmarks.getD 12 default).y) / 2

namespace VisionEngine

/-- `detectar_fase`: "SIN_DETECCION" for an empty or short landmark list;
otherwise stores the current height and angle, folds the angle into the
per-repetition extrema accumulators, and classifies by shoulder height
with strict comparisons against the thresholds. -/
noncomputable def detectar_fase (s : VisionEngine) (landmarks : List Landmark) :
    VisionEngine × String :=
  if landmarks = [] ∨ landmarks.length < 33 then (s, "SIN_DETECCION")
  else
    let altura := calcular_altura_hombros landmarks
    let angulo := calcular_angulo_codo landmarks
    let s1 :=
      { s with
        altura_actual := altura
        angulo_actual := angulo
        angulo_maximo_durante_repeticion :=
          max s.angulo_maximo_durante_repeticion angulo
        angulo_minimo_durante_repeticion :=
          min s.angulo_minimo_durante_repeticion angulo }
    if altura < s.umbral_alto then (s1, "ALTO")
    else if altura > s.umbral_bajo then (s1, "BAJO")
    else (s1, "TRANSICION")

/-- The body of the rising-edge branch of `procesar_frame`: set the latch,
increment the counter, append the `Repeticion` record (sequence number =
incremented counter, angle extrema from the accumulators, timestamp =
current frame count), and reset the accumulators. -/
noncomputable def contarRepeticion (s : VisionEngine) : VisionEngine :=
  let s1 :=
    { s with
      en_posicion_alta := true
      contador_repeticiones := s.contador_repeticiones + 1 }
  let rep : Repeticion :=
    { repeticion := s1.contador_repeticiones
      angulo_maximo := s1.angulo_maximo_durante_repeticion
      angulo_minimo := s1.angulo_minimo_durante_repeticion
      timestamp := s1.frame_count }
  { s1 with
    historial_repeticiones := s1.historial_repeticiones ++ [rep]
    angulo_maximo_durante_repeticion := 0
    angulo_minimo_durante_repeticion := 180 }

/-- `procesar_frame`: the input is the (out-of-scope) pose model's result,
`none` when no person was detected.  On `none` the source returns early
with `(False, "SIN_DETECCION")` touching no state.  Otherwise it
classifies the frame, counts a repetition on a qualifying rising edge
(phase "ALTO", previous phase "BAJO" or "TRANSICION", latch down), drops
the latch on "BAJO", records the phase and increments the frame counter. -/
noncomputable def procesar_frame (s : VisionEngine)
    (pose_landmarks : Option (List Landmark)) :
    VisionEngine × Bool × String :=
  match pose_landmarks with
  | none => (s, false, "SIN_DETECCION")
  | some landmarks =>
      let d := s.detectar_fase landmarks
      let s1 := d.1
      let fase := d.2
      let paso :=
        if fase = "ALTO" ∧ (s1.ultima_fase = "BAJO" ∨ s1.ultima_fase = "TRANSICION")
        then
          if s1.en_posicion_alta = false then (contarRepeticion s1, true)
          else (s1, false)
        else (s1, false)
      let s2 := paso.1
      let nueva_repeticion := paso.2
      let s3 := if fase = "BAJO" then { s2 with en_posicion_alta := false } else s2
      let s4 := { s3 with ultima_fase := fase, frame_count := s3.frame_count + 1 }
      (s4, nueva_repeticion, fase)

/-- The per-frame driver loop of `video_processor.py`, restricted to the
engine state: fold `procesar_frame` over the frames of a video. -/
noncomputable def procesar_video (s : VisionEngine)
    (frames : List (Option (List Landmark))) : VisionEngine :=
  frames.foldl (fun st f => (st.procesar_frame f).1) s

/-- Session-state invariant: the repetition counter equals the history
length, the i-th record carries sequence number i+1, and every record has
its minimum angle below its maximum angle. -/
def Inv (s : VisionEngine) : Prop :=
  s.contador_repeticiones = s.historial_repeticiones.length ∧
  (∀ i r, s.historial_repeticiones[i]? = some r → r.repeticion = i + 1) ∧
  ∀ r ∈ s.historial_repeticiones, r.angulo_minimo ≤ r.angulo_maximo

end VisionEngine

/-- A full 33-landmark frame in which every keypoint sits at height `h`
with visibility `v`: the simplest pose input realizing shoulder height `h`. -/
def uniformLms (h v : ℚ) : List Landmark :=
  List.replicate 33 ⟨0, h, v⟩

/-- Swap the two outer points (shoulder, index 11, and wrist, index 15) of
a landmark list, leaving the elbow vertex (index 13) in place. -/
def swapOuter (l : List Landmark) : List Landmark :=
  (l.set 11 (l.getD 15 default)).set 15 (l.getD 11 default)

namespace VisionEngine

theorem detectar_fase_corto (s : VisionEngine) (l : List Landmark)
    (h : l = [] ∨ l.length < 33) : s.detectar_fase l = (s, "SIN_DETECCION") := by
  simp only [detectar_fase, if_pos h]

theorem detectar_fase_snd (s : VisionEngine) (l : List Landmark)
    (h : ¬(l = [] ∨ l.length < 33)) :
    (s.detectar_fase l).2 =
      if calcular_altura_hombros l < s.umbral_alto then "ALTO"
      else if calcular_altura_hombros l > s.umbral_bajo then "BAJO"
      else "TRANSICION" := by
  simp only [detectar_fase, if_neg h]
  split_ifs <;> rfl

theorem detectar_fase_fst (s : VisionEngine) (l : List Landmark)
    (h : ¬(l = [] ∨ l.length < 33)) :
    (s.detectar_fase l).1 =
      { s with
        altura_actual := calcular_altura_hombros l
        angulo_actual := calcular_angulo_codo l
        angulo_maximo_durante_repeticion :=
          max s.angulo_maximo_durante_repeticion (calcular_angulo_codo l)
        angulo_minimo_durante_repeticion :=
          min s.angulo_minimo_durante_repeticion (calcular_angulo_codo l) } := by
  simp only [detectar_fase, if_neg h]
  split_ifs <;> rfl

end VisionEngine

namespace VisionEngine

theorem detectar_fase_preserva (s : VisionEngine) (l : List Landmark) :
    (s.detectar_fase l).1.umbral_alto = s.umbral_alto ∧
    (s.detectar_fase l).1.umbral_bajo = s.umbral_bajo ∧
    (s.detectar_fase l).1.en_posicion_alta = s.en_posicion_alta ∧
    (s.detectar_fase l).1.contador_repeticiones = s.contador_repeticiones ∧
    (s.detectar_fase l).1.frame_count = s.frame_count ∧
    (s.detectar_fase l).1.ultima_fase = s.ultima_fase ∧
    (s.detectar_fase l).1.historial_repeticiones = s.historial_repeticiones := by
  simp only [detectar_fase]
  split_ifs <;> simp

theorem procesar_frame_none (s : VisionEngine) :
    s.procesar_frame none = (s, false, "SIN_DETECCION") := rfl

theorem procesar_frame_fase (s : VisionEngine) (l : List Landmark) :
    (s.procesar_frame (some l)).2.2 = (s.detectar_fase l).2 := by
  simp only [procesar_frame]

theorem procesar_frame_frame_count (s : VisionEngine) (l : List Landmark) :
    (s.procesar_frame (some l)).1.frame_count = s.frame_count + 1 := by
  have hp := detectar_fase_preserva s l
  simp only [procesar_frame, contarRepeticion]
  split_ifs <;> simp [hp.2.2.2.2.1]

theorem procesar_frame_contador (s : VisionEngine) (l : List Landmark) :
    (s.procesar_frame (some l)).1.contador_repeticiones =
      if (s.detectar_fase l).2 = "ALTO" ∧
          (s.ultima_fase = "BAJO" ∨ s.ultima_fase = "TRANSICION") ∧
          s.en_posicion_alta = false
      then s.contador_repeticiones + 1 else s.contador_repeticiones := by
  have hp := detectar_fase_preserva s l
  obtain ⟨-, -, hlatch, hcont, -, hult, -⟩ := hp
  simp only [procesar_frame, contarRepeticion]
  split_ifs with h1 h2 h3 <;> simp_all

end VisionEngine

namespace VisionEngine

theorem procesar_frame_latch (s : VisionEngine) (l : List Landmark) :
    (s.procesar_frame (some l)).1.en_posicion_alta =
      if (s.detectar_fase l).2 = "BAJO" then false
      else if (s.detectar_fase l).2 = "ALTO" ∧
          (s.ultima_fase = "BAJO" ∨ s.ultima_fase = "TRANSICION") ∧
          s.en_posicion_alta = false
        then true else s.en_posicion_alta := by
  obtain ⟨-, -, hlatch, -, -, hult, -⟩ := detectar_fase_preserva s l
  simp only [procesar_frame, contarRepeticion]
  split_ifs <;> simp_all

theorem procesar_frame_historial (s : VisionEngine) (l : List Landmark) :
    (s.procesar_frame (some l)).1.historial_repeticiones =
      if (s.detectar_fase l).2 = "ALTO" ∧
          (s.ultima_fase = "BAJO" ∨ s.ultima_fase = "TRANSICION") ∧
          s.en_posicion_alta = false
      then s.historial_repeticiones ++
        [{ repeticion := s.contador_repeticiones + 1
           angulo_maximo := (s.detectar_fase l).1.angulo_maximo_durante_repeticion
           angulo_minimo := (s.detectar_fase l).1.angulo_minimo_durante_repeticion
           timestamp := s.frame_count }]
      else s.historial_repeticiones := by
  obtain ⟨-, -, hlatch, hcont, hfr, hult, hhist⟩ := detectar_fase_preserva s l
  simp only [procesar_frame, contarRepeticion]
  split_ifs <;> simp_all

theorem procesar_frame_accs (s : VisionEngine) (l : List Landmark)
    (h : ¬(l = [] ∨ l.length < 33)) :
    (s.detectar_fase l).1.angulo_minimo_durante_repeticion ≤
      (s.detectar_fase l).1.angulo_maximo_durante_repeticion := by
  rw [detectar_fase_fst s l h]
  exact le_trans (min_le_right _ _) (le_max_right _ _)

end VisionEngine

theorem uniformLms_length (h v : ℚ) : (uniformLms h v).length = 33 := by
  simp [uniformLms]

theorem calcular_altura_hombros_uniform (h v : ℚ) :
    calcular_altura_hombros (uniformLms h v) = h := by
  have h11 : (uniformLms h v).getD 11 default = ⟨0, h, v⟩ := by
    simp [uniformLms, List.getD_eq_getElem?_getD]
  have h12 : (uniformLms h v).getD 12 default = ⟨0, h, v⟩ := by
    simp [uniformLms, List.getD_eq_getElem?_getD]
  rw [calcular_altura_hombros, if_neg (by simp [uniformLms]), h11, h12]
  ring

theorem calcular_angulo_codo_uniform (h v : ℚ) :
    calcular_angulo_codo (uniformLms h v) = 180 := by
  have h11 : (uniformLms h v).getD 11 default = ⟨0, h, v⟩ := by
    simp [uniformLms, List.getD_eq_getElem?_getD]
  have h13 : (uniformLms h v).getD 13 default = ⟨0, h, v⟩ := by
    simp [uniformLms, List.getD_eq_getElem?_getD]
  have h15 : (uniformLms h v).getD 15 default = ⟨0, h, v⟩ := by
    simp [uniformLms, List.getD_eq_getElem?_getD]
  rw [calcular_angulo_codo, if_neg (by simp [uniformLms]), h11, h13, h15]
  simp [anguloEntre]

namespace VisionEngine

theorem detectar_fase_uniform (s : VisionEngine) (h v : ℚ) :
    s.detectar_fase (uniformLms h v) =
      ({ s with
          altura_actual := h
          angulo_actual := 180
          angulo_maximo_durante_repeticion :=
            max s.angulo_maximo_durante_repeticion 180
          angulo_minimo_durante_repeticion :=
            min s.angulo_minimo_durante_repeticion 180 },
        if h < s.umbral_alto then "ALTO"
        else if h > s.umbral_bajo then "BAJO" else "TRANSICION") := by
  have hlen : ¬(uniformLms h v = [] ∨ (uniformLms h v).length < 33) := by
    simp [uniformLms]
  simp only [detectar_fase, if_neg hlen, calcular_altura_hombros_uniform,
    calcular_angulo_codo_uniform]
  split_ifs <;> rfl

end VisionEngine

namespace VisionEngine

theorem procesar_frame_uniform_alto_cuenta (s : VisionEngine) (h v : ℚ)
    (h1 : h < s.umbral_alto)
    (h2 : s.ultima_fase = "BAJO" ∨ s.ultima_fase = "TRANSICION")
    (h3 : s.en_posicion_alta = false) :
    s.procesar_frame (some (uniformLms h v)) =
      ({ umbral_alto := s.umbral_alto
         umbral_bajo := s.umbral_bajo
         en_posicion_alta := true
         contador_repeticiones := s.contador_repeticiones + 1
         frame_count := s.frame_count + 1
         ultima_fase := "ALTO"
         historial_repeticiones := s.historial_repeticiones ++
           [{ repeticion := s.contador_repeticiones + 1
              angulo_maximo := max s.angulo_maximo_durante_repeticion 180
              angulo_minimo := min s.angulo_minimo_durante_repeticion 180
              timestamp := s.frame_count }]
         angulo_actual := 180
         altura_actual := h
         angulo_maximo_durante_repeticion := 0
         angulo_minimo_durante_repeticion := 180 }, true, "ALTO") := by
  simp only [procesar_frame, detectar_fase_uniform, if_pos h1, contarRepeticion]
  simp [h2, h3]

theorem procesar_frame_uniform_alto_latched (s : VisionEngine) (h v : ℚ)
    (h1 : h < s.umbral_alto) (h3 : s.en_posicion_alta = true) :
    s.procesar_frame (some (uniformLms h v)) =
      ({ s with
          ultima_fase := "ALTO"
          frame_count := s.frame_count + 1
          angulo_actual := 180
          altura_actual := h
          angulo_maximo_durante_repeticion :=
            max s.angulo_maximo_durante_repeticion 180
          angulo_minimo_durante_repeticion :=
            min s.angulo_minimo_durante_repeticion 180 }, false, "ALTO") := by
  simp only [procesar_frame, detectar_fase_uniform, if_pos h1, contarRepeticion]
  simp [h3]

theorem procesar_frame_uniform_bajo (s : VisionEngine) (h v : ℚ)
    (h1 : ¬ h < s.umbral_alto) (h2 : h > s.umbral_bajo) :
    s.procesar_frame (some (uniformLms h v)) =
      ({ s with
          en_posicion_alta := false
          ultima_fase := "BAJO"
          frame_count := s.frame_count + 1
          angulo_actual := 180
          altura_actual := h
          angulo_maximo_durante_repeticion :=
            max s.angulo_maximo_durante_repeticion 180
          angulo_minimo_durante_repeticion :=
            min s.angulo_minimo_durante_repeticion 180 }, false, "BAJO") := by
  simp only [procesar_frame, detectar_fase_uniform, if_neg h1, if_pos h2]
  simp

theorem procesar_frame_uniform_transicion (s : VisionEngine) (h v : ℚ)
    (h1 : ¬ h < s.umbral_alto) (h2 : ¬ h > s.umbral_bajo) :
    s.procesar_frame (some (uniformLms h v)) =
      ({ s with
          ultima_fase := "TRANSICION"
          frame_count := s.frame_count + 1
          angulo_actual := 180
          altura_actual := h
          angulo_maximo_durante_repeticion :=
            max s.angulo_maximo_durante_repeticion 180
          angulo_minimo_durante_repeticion :=
            min s.angulo_minimo_durante_repeticion 180 }, false, "TRANSICION") := by
  simp only [procesar_frame, detectar_fase_uniform, if_neg h1, if_neg h2]
  simp

end VisionEngine

/-- C10: `reset` is idempotent — applying it twice from any reachable state
yields exactly the same engine state as applying it once. -/
theorem C10_reset_idempotente (s : VisionEngine) : s.reset.reset = s.reset := rfl

/-- C4 counterexample: processing a no-person frame ("SIN_DETECCION"
outcome) from the freshly constructed engine leaves the frame counter at 0
instead of incrementing it to 1 as the claim requires. -/
theorem C4_counterexample :
    ((VisionEngine.init (1/5) (3/10)).procesar_frame none).2.2 = "SIN_DETECCION" ∧
    ((VisionEngine.init (1/5) (3/10)).procesar_frame none).1.frame_count = 0 := by
  exact ⟨rfl, rfl⟩

/-- C4 amended: a no-person frame leaves the whole state unchanged (frame
counter included), while a frame with a person but an insufficient landmark
list keeps the repetition counter and the latch and increments the frame
counter by exactly 1. -/
theorem C4_sin_deteccion (s : VisionEngine) (l : List Landmark)
    (h : l = [] ∨ l.length < 33) :
    s.procesar_frame none = (s, false, "SIN_DETECCION") ∧
    (s.procesar_frame (some l)).2.2 = "SIN_DETECCION" ∧
    (s.procesar_frame (some l)).1.contador_repeticiones = s.contador_repeticiones ∧
    (s.procesar_frame (some l)).1.en_posicion_alta = s.en_posicion_alta ∧
    (s.procesar_frame (some l)).1.frame_count = s.frame_count + 1 := by
  have hf : (s.procesar_frame (some l)).2.2 = "SIN_DETECCION" := by
    rw [VisionEngine.procesar_frame_fase, VisionEngine.detectar_fase_corto s l h]
  have hfase : (s.detectar_fase l).2 = "SIN_DETECCION" := by
    rw [VisionEngine.detectar_fase_corto s l h]
  refine ⟨VisionEngine.procesar_frame_none s, hf, ?_, ?_, ?_⟩
  · rw [VisionEngine.procesar_frame_contador, if_neg]
    simp [hfase]
  · rw [VisionEngine.procesar_frame_latch, hfase]
    simp
  · exact VisionEngine.procesar_frame_frame_count s l

/-- C4 witness: the amended statement instantiated at the fresh engine and
the empty landmark list. -/
theorem C4_sin_deteccion_witness :
    (VisionEngine.init (1/5) (3/10)).procesar_frame none =
      (VisionEngine.init (1/5) (3/10), false, "SIN_DETECCION") ∧
    ((VisionEngine.init (1/5) (3/10)).procesar_frame (some [])).2.2 = "SIN_DETECCION" ∧
    ((VisionEngine.init (1/5) (3/10)).procesar_frame (some [])).1.contador_repeticiones =
      (VisionEngine.init (1/5) (3/10)).contador_repeticiones ∧
    ((VisionEngine.init (1/5) (3/10)).procesar_frame (some [])).1.en_posicion_alta =
      (VisionEngine.init (1/5) (3/10)).en_posicion_alta ∧
    ((VisionEngine.init (1/5) (3/10)).procesar_frame (some [])).1.frame_count =
      (VisionEngine.init (1/5) (3/10)).frame_count + 1 :=
  C4_sin_deteccion (VisionEngine.init (1/5) (3/10)) [] (Or.inl rfl)

/-- C5 counterexample: constructing the engine with
umbral_alto = 0.30 ≥ umbral_bajo = 0.20 raises nothing — the invalid
thresholds are stored as given and a frame is then processed normally
(the frame counter advances and the frame is classified). -/
theorem C5_counterexample :
    (VisionEngine.init (3/10) (1/5)).umbral_alto ≥
      (VisionEngine.init (3/10) (1/5)).umbral_bajo ∧
    ((VisionEngine.init (3/10) (1/5)).procesar_frame
      (some (uniformLms (1/2) 1))).1.frame_count = 1 ∧
    ((VisionEngine.init (3/10) (1/5)).procesar_frame
      (some (uniformLms (1/2) 1))).2.2 = "BAJO" := by
  refine ⟨by norm_num [VisionEngine.init, VisionEngine.reset], ?_, ?_⟩
  · rw [VisionEngine.procesar_frame_frame_count]
    rfl
  · rw [VisionEngine.procesar_frame_fase, VisionEngine.detectar_fase_uniform]
    norm_num [VisionEngine.init, VisionEngine.reset]

/-- C5 amended: the constructor performs no threshold validation — for any
thresholds, including umbral_alto ≥ umbral_bajo, it returns an engine in
the reset initial state with the thresholds stored verbatim, and frames
are then processed (the frame counter advances). -/
theorem C5_sin_validacion (a b : ℚ) (_hab : a ≥ b) :
    (VisionEngine.init a b).umbral_alto = a ∧
    (VisionEngine.init a b).umbral_bajo = b ∧
    (VisionEngine.init a b).contador_repeticiones = 0 ∧
    (VisionEngine.init a b).frame_count = 0 ∧
    ∀ l : List Landmark,
      ((VisionEngine.init a b).procesar_frame (some l)).1.frame_count = 1 := by
  refine ⟨rfl, rfl, rfl, rfl, fun l => ?_⟩
  rw [VisionEngine.procesar_frame_frame_count]
  rfl

/-- C5 witness: the amended statement instantiated at the inverted
thresholds 0.30 ≥ 0.20. -/
theorem C5_sin_validacion_witness :
    ((VisionEngine.init (3/10) (1/5)).procesar_frame
      (some (uniformLms (1/2) 1))).1.frame_count = 1 :=
  (C5_sin_validacion (3/10) (1/5) (by norm_num)).2.2.2.2 (uniformLms (1/2) 1)

namespace VisionEngine

theorem procesar_frame_contador_mono (s : VisionEngine)
    (inp : Option (List Landmark)) :
    s.contador_repeticiones ≤ (s.procesar_frame inp).1.contador_repeticiones := by
  cases inp with
  | none => exact le_refl _
  | some l =>
      rw [procesar_frame_contador]
      split_ifs <;> omega

theorem procesar_video_contador_mono (frames : List (Option (List Landmark)))
    (s : VisionEngine) :
    s.contador_repeticiones ≤ (s.procesar_video frames).contador_repeticiones := by
  induction frames generalizing s with
  | nil => exact le_refl _
  | cons f rest ih =>
      calc s.contador_repeticiones
          ≤ (s.procesar_frame f).1.contador_repeticiones :=
            procesar_frame_contador_mono s f
        _ ≤ ((s.procesar_frame f).1.procesar_video rest).contador_repeticiones :=
            ih _

end VisionEngine

/-- C1: the repetition counter never decreases — across a single
`procesar_frame` call and across any sequence of calls — and it changes
(by exactly +1) on a call precisely when the frame's classified phase is
"ALTO", the previously stored phase was "BAJO" or "TRANSICION", and the
at-top latch was down. -/
theorem C1_contador_monotono (s : VisionEngine) (inp : Option (List Landmark)) :
    s.contador_repeticiones ≤ (s.procesar_frame inp).1.contador_repeticiones ∧
    ((s.procesar_frame inp).1.contador_repeticiones = s.contador_repeticiones ∨
      (s.procesar_frame inp).1.contador_repeticiones = s.contador_repeticiones + 1) ∧
    ((s.procesar_frame inp).1.contador_repeticiones = s.contador_repeticiones + 1 ↔
      ((s.procesar_frame inp).2.2 = "ALTO" ∧
       (s.ultima_fase = "BAJO" ∨ s.ultima_fase = "TRANSICION") ∧
       s.en_posicion_alta = false)) ∧
    ∀ frames : List (Option (List Landmark)),
      s.contador_repeticiones ≤ (s.procesar_video frames).contador_repeticiones := by
  refine ⟨VisionEngine.procesar_frame_contador_mono s inp, ?_, ?_,
    fun frames => VisionEngine.procesar_video_contador_mono frames s⟩
  · cases inp with
    | none => exact Or.inl rfl
    | some l =>
        rw [VisionEngine.procesar_frame_contador]
        split_ifs <;> simp
  · cases inp with
    | none =>
        rw [VisionEngine.procesar_frame_none]
        simp
    | some l =>
        rw [VisionEngine.procesar_frame_contador, VisionEngine.procesar_frame_fase]
        split_ifs with hc
        · simp [hc]
        · exact ⟨fun h2 => absurd h2 (by omega), fun h2 => absurd h2 hc⟩

/-- C6: while the at-top latch is set, no `procesar_frame` call increments
the repetition counter, and the latch drops exactly on a frame classified
"BAJO"; consequently the phase sequence [Up, Transition, Up, Transition,
Up] from the initial state counts exactly 1 repetition. -/
theorem C6_latch_bloquea (s : VisionEngine) (inp : Option (List Landmark))
    (h : s.en_posicion_alta = true) :
    (s.procesar_frame inp).1.contador_repeticiones = s.contador_repeticiones ∧
    ((s.procesar_frame inp).1.en_posicion_alta = false ↔
      (s.procesar_frame inp).2.2 = "BAJO") ∧
    (VisionEngine.procesar_video (VisionEngine.init (1/5) (3/10))
      [some (uniformLms (1/10) 1), some (uniformLms (1/4) 1),
       some (uniformLms (1/10) 1), some (uniformLms (1/4) 1),
       some (uniformLms (1/10) 1)]).contador_repeticiones = 1 := by
  refine ⟨?_, ?_, ?_⟩
  · cases inp with
    | none => rfl
    | some l =>
        rw [VisionEngine.procesar_frame_contador, if_neg]
        intro hc
        rw [h] at hc
        exact absurd hc.2.2 (by simp)
  · cases inp with
    | none =>
        rw [VisionEngine.procesar_frame_none]
        simp [h]
    | some l =>
        rw [VisionEngine.procesar_frame_latch, VisionEngine.procesar_frame_fase]
        split_ifs with h1 h2
        · simp [h1]
        · simp [h1]
        · simp [h1, h]
  · have s1 : (VisionEngine.init (1/5) (3/10)).procesar_frame
        (some (uniformLms (1/10) 1)) =
        (⟨1/5, 3/10, true, 1, 1, "ALTO", [⟨1, 180, 180, 0⟩], 180, 1/10, 0, 180⟩,
          true, "ALTO") := by
      rw [VisionEngine.procesar_frame_uniform_alto_cuenta _ _ _
        (by norm_num [VisionEngine.init, VisionEngine.reset]) (Or.inl rfl) rfl]
      norm_num [VisionEngine.init, VisionEngine.reset, Prod.ext_iff,
        VisionEngine.mk.injEq, max_eq_right, min_self]
    have s2 : (VisionEngine.procesar_frame
        ⟨1/5, 3/10, true, 1, 1, "ALTO", [⟨1, 180, 180, 0⟩], 180, 1/10, 0, 180⟩
        (some (uniformLms (1/4) 1))) =
        (⟨1/5, 3/10, true, 1, 2, "TRANSICION", [⟨1, 180, 180, 0⟩], 180, 1/4, 180, 180⟩,
          false, "TRANSICION") := by
      rw [VisionEngine.procesar_frame_uniform_transicion _ _ _ (by norm_num)
        (by norm_num)]
      norm_num [Prod.ext_iff, VisionEngine.mk.injEq, max_eq_right, min_self]
    have s3 : (VisionEngine.procesar_frame
        ⟨1/5, 3/10, true, 1, 2, "TRANSICION", [⟨1, 180, 180, 0⟩], 180, 1/4, 180, 180⟩
        (some (uniformLms (1/10) 1))) =
        (⟨1/5, 3/10, true, 1, 3, "ALTO", [⟨1, 180, 180, 0⟩], 180, 1/10, 180, 180⟩,
          false, "ALTO") := by
      rw [VisionEngine.procesar_frame_uniform_alto_latched _ _ _ (by norm_num) rfl]
      norm_num [Prod.ext_iff, VisionEngine.mk.injEq, max_self, min_self]
    have s4 : (VisionEngine.procesar_frame
        ⟨1/5, 3/10, true, 1, 3, "ALTO", [⟨1, 180, 180, 0⟩], 180, 1/10, 180, 180⟩
        (some (uniformLms (1/4) 1))) =
        (⟨1/5, 3/10, true, 1, 4, "TRANSICION", [⟨1, 180, 180, 0⟩], 180, 1/4, 180, 180⟩,
          false, "TRANSICION") := by
      rw [VisionEngine.procesar_frame_uniform_transicion _ _ _ (by norm_num)
        (by norm_num)]
      norm_num [Prod.ext_iff, VisionEngine.mk.injEq, max_self, min_self]
    have s5 : (VisionEngine.procesar_frame
        ⟨1/5, 3/10, true, 1, 4, "TRANSICION", [⟨1, 180, 180, 0⟩], 180, 1/4, 180, 180⟩
        (some (uniformLms (1/10) 1))) =
        (⟨1/5, 3/10, true, 1, 5, "ALTO", [⟨1, 180, 180, 0⟩], 180, 1/10, 180, 180⟩,
          false, "ALTO") := by
      rw [VisionEngine.procesar_frame_uniform_alto_latched _ _ _ (by norm_num) rfl]
      norm_num [Prod.ext_iff, VisionEngine.mk.injEq, max_self, min_self]
    simp only [VisionEngine.procesar_video, List.foldl_cons, List.foldl_nil,
      s1, s2, s3, s4, s5]

/-- C6 witness: the latched-state part instantiated at a concrete latched
engine state fed a no-detection frame. -/
theorem C6_latch_bloquea_witness :
    ((VisionEngine.procesar_frame
        ⟨1/5, 3/10, true, 1, 1, "ALTO", [⟨1, 180, 180, 0⟩], 180, 1/10, 0, 180⟩
        none).1.contador_repeticiones =
      (⟨1/5, 3/10, true, 1, 1, "ALTO", [⟨1, 180, 180, 0⟩], 180, 1/10, 0, 180⟩ :
        VisionEngine).contador_repeticiones) :=
  (C6_latch_bloquea
    ⟨1/5, 3/10, true, 1, 1, "ALTO", [⟨1, 180, 180, 0⟩], 180, 1/10, 0, 180⟩
    none rfl).1

/-- C2: from the initial state, the phase sequence [Down, Down, Up, Up,
Down, Up] (realized by shoulder heights 1/2 and 1/10 under the default
thresholds) counts exactly 2 repetitions, and the two emitted records
carry frame indices 2 and 5. -/
theorem C2_secuencia_dos_repeticiones :
    (VisionEngine.procesar_video (VisionEngine.init (1/5) (3/10))
        [some (uniformLms (1/2) 1), some (uniformLms (1/2) 1),
         some (uniformLms (1/10) 1), some (uniformLms (1/10) 1),
         some (uniformLms (1/2) 1), some (uniformLms (1/10) 1)]
      ).contador_repeticiones = 2 ∧
    ((VisionEngine.procesar_video (VisionEngine.init (1/5) (3/10))
        [some (uniformLms (1/2) 1), some (uniformLms (1/2) 1),
         some (uniformLms (1/10) 1), some (uniformLms (1/10) 1),
         some (uniformLms (1/2) 1), some (uniformLms (1/10) 1)]
      ).historial_repeticiones).map Repeticion.timestamp = [2, 5] := by
  have s1 : (VisionEngine.init (1/5) (3/10)).procesar_frame
      (some (uniformLms (1/2) 1)) =
      (⟨1/5, 3/10, false, 0, 1, "BAJO", [], 180, 1/2, 180, 180⟩, false, "BAJO") := by
    rw [VisionEngine.procesar_frame_uniform_bajo _ _ _
      (by norm_num [VisionEngine.init, VisionEngine.reset])
      (by norm_num [VisionEngine.init, VisionEngine.reset])]
    norm_num [VisionEngine.init, VisionEngine.reset, Prod.ext_iff,
      VisionEngine.mk.injEq, max_eq_right, min_self]
  have s2 : (VisionEngine.procesar_frame
      ⟨1/5, 3/10, false, 0, 1, "BAJO", [], 180, 1/2, 180, 180⟩
      (some (uniformLms (1/2) 1))) =
      (⟨1/5, 3/10, false, 0, 2, "BAJO", [], 180, 1/2, 180, 180⟩, false, "BAJO") := by
    rw [VisionEngine.procesar_frame_uniform_bajo _ _ _ (by norm_num) (by norm_num)]
    norm_num [Prod.ext_iff, VisionEngine.mk.injEq, max_self, min_self]
  have s3 : (VisionEngine.procesar_frame
      ⟨1/5, 3/10, false, 0, 2, "BAJO", [], 180, 1/2, 180, 180⟩
      (some (uniformLms (1/10) 1))) =
      (⟨1/5, 3/10, true, 1, 3, "ALTO", [⟨1, 180, 180, 2⟩], 180, 1/10, 0, 180⟩,
        true, "ALTO") := by
    rw [VisionEngine.procesar_frame_uniform_alto_cuenta _ _ _ (by norm_num)
      (Or.inl rfl) rfl]
    norm_num [Prod.ext_iff, VisionEngine.mk.injEq, max_self, min_self]
  have s4 : (VisionEngine.procesar_frame
      ⟨1/5, 3/10, true, 1, 3, "ALTO", [⟨1, 180, 180, 2⟩], 180, 1/10, 0, 180⟩
      (some (uniformLms (1/10) 1))) =
      (⟨1/5, 3/10, true, 1, 4, "ALTO", [⟨1, 180, 180, 2⟩], 180, 1/10, 180, 180⟩,
        false, "ALTO") := by
    rw [VisionEngine.procesar_frame_uniform_alto_latched _ _ _ (by norm_num) rfl]
    norm_num [Prod.ext_iff, VisionEngine.mk.injEq, max_eq_right, min_self]
  have s5 : (VisionEngine.procesar_frame
      ⟨1/5, 3/10, true, 1, 4, "ALTO", [⟨1, 180, 180, 2⟩], 180, 1/10, 180, 180⟩
      (some (uniformLms (1/2) 1))) =
      (⟨1/5, 3/10, false, 1, 5, "BAJO", [⟨1, 180, 180, 2⟩], 180, 1/2, 180, 180⟩,
        false, "BAJO") := by
    rw [VisionEngine.procesar_frame_uniform_bajo _ _ _ (by norm_num) (by norm_num)]
    norm_num [Prod.ext_iff, VisionEngine.mk.injEq, max_self, min_self]
  have s6 : (VisionEngine.procesar_frame
      ⟨1/5, 3/10, false, 1, 5, "BAJO", [⟨1, 180, 180, 2⟩], 180, 1/2, 180, 180⟩
      (some (uniformLms (1/10) 1))) =
      (⟨1/5, 3/10, true, 2, 6, "ALTO", [⟨1, 180, 180, 2⟩, ⟨2, 180, 180, 5⟩],
        180, 1/10, 0, 180⟩, true, "ALTO") := by
    rw [VisionEngine.procesar_frame_uniform_alto_cuenta _ _ _ (by norm_num)
      (Or.inl rfl) rfl]
    norm_num [Prod.ext_iff, VisionEngine.mk.injEq, max_self, min_self]
  refine ⟨?_, ?_⟩ <;>
    (simp only [VisionEngine.procesar_video, List.foldl_cons, List.foldl_nil,
      s1, s2, s3, s4, s5, s6]; try rfl)

/-- C3 counterexample: with the default thresholds, a shoulder height of
exactly 0.30 = umbral_bajo is classified "TRANSICION", not "BAJO" as the
claim's non-strict rule (h >= umbral_bajo → Down) requires; the code
compares strictly. -/
theorem C3_counterexample :
    ((VisionEngine.init (1/5) (3/10)).detectar_fase (uniformLms (3/10) 1)).2 =
      "TRANSICION" ∧
    ((VisionEngine.init (1/5) (3/10)).detectar_fase (uniformLms (3/10) 1)).2 ≠
      "BAJO" ∧
    calcular_altura_hombros (uniformLms (3/10) 1) ≥
      (VisionEngine.init (1/5) (3/10)).umbral_bajo := by
  rw [VisionEngine.detectar_fase_uniform]
  norm_num [VisionEngine.init, VisionEngine.reset,
    calcular_altura_hombros_uniform]
  decide

/-- C3 amended: for a full landmark set and thresholds
umbral_alto < umbral_bajo, the classifier returns "ALTO" iff
h < umbral_alto (strict), "BAJO" iff h > umbral_bajo (strict), and
"TRANSICION" iff umbral_alto ≤ h ≤ umbral_bajo; hence the height sequence
[0.5, 0.4, 0.30, 0.25, 0.18, 0.15, 0.32, 0.5] under thresholds 0.20/0.30
classifies as [Down, Down, Transition, Transition, Up, Up, Down, Down]. -/
theorem C3_clasificacion_estricta (s : VisionEngine) (l : List Landmark)
    (hl : ¬(l = [] ∨ l.length < 33)) (hord : s.umbral_alto < s.umbral_bajo) :
    (((s.detectar_fase l).2 = "ALTO") ↔
      calcular_altura_hombros l < s.umbral_alto) ∧
    (((s.detectar_fase l).2 = "BAJO") ↔
      s.umbral_bajo < calcular_altura_hombros l) ∧
    (((s.detectar_fase l).2 = "TRANSICION") ↔
      (s.umbral_alto ≤ calcular_altura_hombros l ∧
       calcular_altura_hombros l ≤ s.umbral_bajo)) ∧
    (([(1:ℚ)/2, 2/5, 3/10, 1/4, 9/50, 3/20, 8/25, 1/2].map fun h =>
        ((VisionEngine.init (1/5) (3/10)).detectar_fase (uniformLms h 1)).2) =
      ["BAJO", "BAJO", "TRANSICION", "TRANSICION", "ALTO", "ALTO",
        "BAJO", "BAJO"]) := by
  rw [VisionEngine.detectar_fase_snd s l hl]
  refine ⟨?_, ?_, ?_, ?_⟩
  · split_ifs with h1 h2 <;> simp_all
  · split_ifs with h1 h2 <;> simp_all
    linarith
  · split_ifs with h1 h2 <;> simp_all
  · simp only [List.map_cons, List.map_nil, VisionEngine.detectar_fase_uniform]
    norm_num [VisionEngine.init, VisionEngine.reset]

/-- C3 witness: the strict classification instantiated at the fresh engine
and a uniform frame at height 1/2. -/
theorem C3_clasificacion_estricta_witness :
    (((VisionEngine.init (1/5) (3/10)).detectar_fase (uniformLms (1/2) 1)).2 =
      "ALTO") ↔
    calcular_altura_hombros (uniformLms (1/2) 1) <
      (VisionEngine.init (1/5) (3/10)).umbral_alto :=
  (C3_clasificacion_estricta (VisionEngine.init (1/5) (3/10)) (uniformLms (1/2) 1)
    (by simp [uniformLms])
    (by norm_num [VisionEngine.init, VisionEngine.reset])).1

/-- C7 counterexample: a full 33-landmark set whose every keypoint —
shoulders, elbow and wrist included — has visibility 0 (below any positive
confidence threshold) is still classified "BAJO", not "SIN_DETECCION":
the classifier never consults visibility. -/
theorem C7_counterexample :
    (∀ p ∈ uniformLms (1/2) 0, p.visibility = 0) ∧
    ((VisionEngine.init (1/5) (3/10)).detectar_fase (uniformLms (1/2) 0)).2 =
      "BAJO" ∧
    ((VisionEngine.init (1/5) (3/10)).detectar_fase (uniformLms (1/2) 0)).2 ≠
      "SIN_DETECCION" := by
  refine ⟨?_, ?_, ?_⟩
  · intro p hp
    simp only [uniformLms, List.mem_replicate] at hp
    rw [hp.2]
  · rw [VisionEngine.detectar_fase_uniform]
    norm_num [VisionEngine.init, VisionEngine.reset]
  · rw [VisionEngine.detectar_fase_uniform]
    norm_num [VisionEngine.init, VisionEngine.reset]
    decide

/-- C7 amended: `detectar_fase` ignores landmark visibility entirely — it
returns "SIN_DETECCION" exactly when the landmark list is absent/empty or
has fewer than 33 keypoints, and otherwise classifies the frame as
"ALTO"/"BAJO"/"TRANSICION" no matter how low the visibilities are. -/
theorem C7_visibilidad_ignorada (s : VisionEngine) (l : List Landmark)
    (hl : ¬(l = [] ∨ l.length < 33)) :
    (s.detectar_fase l).2 ≠ "SIN_DETECCION" ∧
    ((s.detectar_fase l).2 = "ALTO" ∨ (s.detectar_fase l).2 = "BAJO" ∨
      (s.detectar_fase l).2 = "TRANSICION") ∧
    ∀ l2 : List Landmark, (l2 = [] ∨ l2.length < 33) →
      (s.detectar_fase l2).2 = "SIN_DETECCION" := by
  rw [VisionEngine.detectar_fase_snd s l hl]
  refine ⟨?_, ?_, fun l2 h2 => ?_⟩
  · split_ifs <;> decide
  · split_ifs <;> simp
  · rw [VisionEngine.detectar_fase_corto s l2 h2]

/-- C7 witness: the amended statement instantiated at the fresh engine and
a zero-visibility uniform frame. -/
theorem C7_visibilidad_ignorada_witness :
    ((VisionEngine.init (1/5) (3/10)).detectar_fase (uniformLms (1/2) 0)).2 ≠
      "SIN_DETECCION" :=
  (C7_visibilidad_ignorada (VisionEngine.init (1/5) (3/10)) (uniformLms (1/2) 0)
    (by simp [uniformLms])).1

/-- C9: the history invariant — counter = history length, 1-based
consecutive sequence numbers, records well-formed (min angle ≤ max angle) —
holds initially, after `reset`, and is preserved by `procesar_frame`;
moreover a call never mutates or removes existing records: the new history
is the old one, possibly extended by a single appended record. -/
theorem C9_invariante :
    (∀ a b : ℚ, VisionEngine.Inv (VisionEngine.init a b)) ∧
    (∀ s : VisionEngine, VisionEngine.Inv s.reset) ∧
    ∀ (s : VisionEngine) (inp : Option (List Landmark)), VisionEngine.Inv s →
      VisionEngine.Inv (s.procesar_frame inp).1 ∧
      ((s.procesar_frame inp).1.historial_repeticiones =
          s.historial_repeticiones ∨
        ∃ r, (s.procesar_frame inp).1.historial_repeticiones =
          s.historial_repeticiones ++ [r]) := by
  refine ⟨?_, ?_, ?_⟩
  · intro a b
    refine ⟨rfl, fun i r h => ?_, fun r hr => ?_⟩
    · simp [VisionEngine.init, VisionEngine.reset] at h
    · simp [VisionEngine.init, VisionEngine.reset] at hr
  · intro s
    refine ⟨rfl, fun i r h => ?_, fun r hr => ?_⟩
    · simp [VisionEngine.reset] at h
    · simp [VisionEngine.reset] at hr
  · intro s inp hinv
    obtain ⟨hc, hseq, hwf⟩ := hinv
    cases inp with
    | none => exact ⟨⟨hc, hseq, hwf⟩, Or.inl rfl⟩
    | some l =>
        by_cases hcond : (s.detectar_fase l).2 = "ALTO" ∧
            (s.ultima_fase = "BAJO" ∨ s.ultima_fase = "TRANSICION") ∧
            s.en_posicion_alta = false
        · have hlong : ¬(l = [] ∨ l.length < 33) := by
            intro hshort
            rw [VisionEngine.detectar_fase_corto s l hshort] at hcond
            simp at hcond
          have haccs := VisionEngine.procesar_frame_accs s l hlong
          have hh := VisionEngine.procesar_frame_historial s l
          have hcc := VisionEngine.procesar_frame_contador s l
          rw [if_pos hcond] at hh hcc
          refine ⟨⟨?_, ?_, ?_⟩, Or.inr ⟨_, hh⟩⟩
          · rw [hh, hcc, List.length_append, hc]
            rfl
          · intro i r hr
            rw [hh] at hr
            rcases Nat.lt_or_ge i s.historial_repeticiones.length with hlt | hge
            · rw [List.getElem?_append_left hlt] at hr
              exact hseq i r hr
            · rw [List.getElem?_append_right hge] at hr
              rcases Nat.exists_eq_add_of_le hge with ⟨j, hj⟩
              subst hj
              cases j with
              | zero =>
                  simp at hr
                  rw [← hr, hc]
              | succ j =>
                  simp [Nat.add_sub_cancel_left] at hr
          · intro r hr
            rw [hh, List.mem_append] at hr
            rcases hr with hold | hnew
            · exact hwf r hold
            · rw [List.mem_singleton] at hnew
              subst hnew
              exact haccs
        · have hh := VisionEngine.procesar_frame_historial s l
          have hcc := VisionEngine.procesar_frame_contador s l
          rw [if_neg hcond] at hh hcc
          rw [VisionEngine.Inv, hh, hcc]
          exact ⟨⟨hc, hseq, hwf⟩, Or.inl rfl⟩

/-- C9 witness: invariant preservation instantiated at the fresh engine
and a no-detection frame, the invariant hypothesis discharged there. -/
theorem C9_invariante_witness :
    VisionEngine.Inv
      ((VisionEngine.init (1/5) (3/10)).procesar_frame none).1 ∧
    (((VisionEngine.init (1/5) (3/10)).procesar_frame none).1.historial_repeticiones =
        (VisionEngine.init (1/5) (3/10)).historial_repeticiones ∨
      ∃ r, ((VisionEngine.init (1/5) (3/10)).procesar_frame none).1.historial_repeticiones =
        (VisionEngine.init (1/5) (3/10)).historial_repeticiones ++ [r]) :=
  C9_invariante.2.2 (VisionEngine.init (1/5) (3/10)) none
    ⟨rfl, fun i r h => by simp [VisionEngine.init, VisionEngine.reset] at h,
      fun r hr => by simp [VisionEngine.init, VisionEngine.reset] at hr⟩

theorem anguloEntre_comm (p1 v p2 : Landmark) :
    anguloEntre p1 v p2 = anguloEntre p2 v p1 := by
  simp only [anguloEntre]
  rw [(by ring : ((p1.x - v.x : ℚ) : ℝ) * ((p2.x - v.x : ℚ) : ℝ) +
      ((p1.y - v.y : ℚ) : ℝ) * ((p2.y - v.y : ℚ) : ℝ) =
      ((p2.x - v.x : ℚ) : ℝ) * ((p1.x - v.x : ℚ) : ℝ) +
      ((p2.y - v.y : ℚ) : ℝ) * ((p1.y - v.y : ℚ) : ℝ)),
    mul_comm (Real.sqrt (((p1.x - v.x : ℚ) : ℝ) ^ 2 + ((p1.y - v.y : ℚ) : ℝ) ^ 2))
      (Real.sqrt (((p2.x - v.x : ℚ) : ℝ) ^ 2 + ((p2.y - v.y : ℚ) : ℝ) ^ 2))]

theorem anguloEntre_nonneg (p1 v p2 : Landmark) : 0 ≤ anguloEntre p1 v p2 := by
  simp only [anguloEntre]
  split_ifs
  · norm_num
  · exact mul_nonneg (Real.arccos_nonneg _) (by positivity)

theorem anguloEntre_le (p1 v p2 : Landmark) : anguloEntre p1 v p2 ≤ 180 := by
  simp only [anguloEntre]
  split_ifs
  · norm_num
  · refine le_trans
      (mul_le_mul_of_nonneg_right (Real.arccos_le_pi _) (by positivity)) ?_
    rw [mul_comm, div_mul_cancel₀ _ Real.pi_ne_zero]

theorem anguloEntre_rayo_cero (p1 v p2 : Landmark)
    (h : (p1.x = v.x ∧ p1.y = v.y) ∨ (p2.x = v.x ∧ p2.y = v.y)) :
    anguloEntre p1 v p2 = 180 := by
  simp only [anguloEntre]
  rcases h with ⟨hx, hy⟩ | ⟨hx, hy⟩
  · rw [if_pos]
    rw [hx, hy]
    simp
  · rw [if_pos]
    rw [hx, hy]
    simp

theorem anguloEntre_colineal (p1 v p2 : Landmark) (c : ℚ) (hc : 0 < c)
    (hne : ¬(p1.x = v.x ∧ p1.y = v.y))
    (hx : p2.x - v.x = -(c * (p1.x - v.x)))
    (hy : p2.y - v.y = -(c * (p1.y - v.y))) :
    anguloEntre p1 v p2 = 180 := by
  simp only [anguloEntre, hx, hy]
  push_cast
  have hne2 : ((p1.x : ℝ) - v.x ≠ 0) ∨ ((p1.y : ℝ) - v.y ≠ 0) := by
    rcases not_and_or.mp hne with h | h
    · left
      intro h0
      exact h (by exact_mod_cast sub_eq_zero.mp h0)
    · right
      intro h0
      exact h (by exact_mod_cast sub_eq_zero.mp h0)
  have hS : (0:ℝ) < ((p1.x:ℝ) - v.x) ^ 2 + ((p1.y:ℝ) - v.y) ^ 2 := by
    rcases hne2 with h | h
    · exact add_pos_of_pos_of_nonneg
        ((sq_nonneg _).lt_of_ne (Ne.symm (pow_ne_zero 2 h))) (sq_nonneg _)
    · exact add_pos_of_nonneg_of_pos (sq_nonneg _)
        ((sq_nonneg _).lt_of_ne (Ne.symm (pow_ne_zero 2 h)))
  have hmag2 : ((-((c:ℝ) * ((p1.x:ℝ) - ↑v.x))) ^ 2 + (-((c:ℝ) * ((p1.y:ℝ) - ↑v.y))) ^ 2)
      = (c:ℝ) ^ 2 * (((p1.x:ℝ) - v.x) ^ 2 + ((p1.y:ℝ) - v.y) ^ 2) := by ring
  rw [hmag2, Real.sqrt_mul (sq_nonneg _), Real.sqrt_sq (by exact_mod_cast hc.le)]
  have hprod : Real.sqrt (((p1.x:ℝ) - v.x) ^ 2 + ((p1.y:ℝ) - v.y) ^ 2) *
      ((c:ℝ) * Real.sqrt (((p1.x:ℝ) - v.x) ^ 2 + ((p1.y:ℝ) - v.y) ^ 2)) =
      (c:ℝ) * (((p1.x:ℝ) - v.x) ^ 2 + ((p1.y:ℝ) - v.y) ^ 2) := by
    rw [mul_comm, mul_assoc, Real.mul_self_sqrt hS.le]
  rw [hprod]
  have hCpos : (0:ℝ) < (c:ℝ) * (((p1.x:ℝ) - v.x) ^ 2 + ((p1.y:ℝ) - v.y) ^ 2) :=
    mul_pos (by exact_mod_cast hc) hS
  rw [if_neg hCpos.ne']
  have hdot : ((p1.x:ℝ) - ↑v.x) * -((c:ℝ) * ((p1.x:ℝ) - ↑v.x)) +
      ((p1.y:ℝ) - ↑v.y) * -((c:ℝ) * ((p1.y:ℝ) - ↑v.y)) =
      -((c:ℝ) * (((p1.x:ℝ) - v.x) ^ 2 + ((p1.y:ℝ) - v.y) ^ 2)) := by ring
  rw [hdot, neg_div, div_self hCpos.ne']
  have hmin : (1:ℝ) ⊓ (-1) = -1 := min_eq_right (by norm_num)
  rw [hmin, max_self, Real.arccos_neg_one, mul_comm,
    div_mul_cancel₀ _ Real.pi_ne_zero]

theorem calcular_angulo_codo_swap (l : List Landmark) :
    calcular_angulo_codo (swapOuter l) = calcular_angulo_codo l := by
  have hlen : (swapOuter l).length = l.length := by
    simp [swapOuter]
  by_cases h17 : l.length < 17
  · rw [calcular_angulo_codo, calcular_angulo_codo, if_pos h17,
      if_pos (by rw [hlen]; exact h17)]
  · have h11 : (11:ℕ) < l.length := by omega
    have h15 : (15:ℕ) < l.length := by omega
    have g11 : (swapOuter l).getD 11 default = l.getD 15 default := by
      rw [swapOuter, List.getD_eq_getElem?_getD,
        List.getElem?_set_ne (by norm_num : (15:ℕ) ≠ 11),
        List.getElem?_set_self (by simpa using h11)]
      rfl
    have g13 : (swapOuter l).getD 13 default = l.getD 13 default := by
      rw [swapOuter, List.getD_eq_getElem?_getD,
        List.getElem?_set_ne (by norm_num : (15:ℕ) ≠ 13),
        List.getElem?_set_ne (by norm_num : (11:ℕ) ≠ 13),
        List.getD_eq_getElem?_getD]
    have g15 : (swapOuter l).getD 15 default = l.getD 11 default := by
      rw [swapOuter, List.getD_eq_getElem?_getD,
        List.getElem?_set_self (by simpa using h15)]
      rfl
    rw [calcular_angulo_codo, calcular_angulo_codo,
      if_neg (by rw [hlen]; exact h17), if_neg h17, g11, g13, g15,
      anguloEntre_comm]

/-- C8: the elbow-angle computation is symmetric under swapping the two
outer points (both at the `anguloEntre` core and at the landmark-list
level, swapping indices 11 and 15), always lies in [0, 180], returns
exactly 180 when either ray from the vertex has zero length or when fewer
than 17 landmarks are supplied, and returns 180 for collinear points on
opposite sides of the vertex. -/
theorem C8_angulo_codo (p1 v p2 : Landmark) (l : List Landmark) :
    anguloEntre p1 v p2 = anguloEntre p2 v p1 ∧
    calcular_angulo_codo (swapOuter l) = calcular_angulo_codo l ∧
    (0 ≤ calcular_angulo_codo l ∧ calcular_angulo_codo l ≤ 180) ∧
    (l.length < 17 → calcular_angulo_codo l = 180) ∧
    ((p1.x = v.x ∧ p1.y = v.y) ∨ (p2.x = v.x ∧ p2.y = v.y) →
      anguloEntre p1 v p2 = 180) ∧
    ∀ c : ℚ, 0 < c → ¬(p1.x = v.x ∧ p1.y = v.y) →
      p2.x - v.x = -(c * (p1.x - v.x)) → p2.y - v.y = -(c * (p1.y - v.y)) →
      anguloEntre p1 v p2 = 180 := by
  refine ⟨anguloEntre_comm p1 v p2, calcular_angulo_codo_swap l, ⟨?_, ?_⟩,
    fun h17 => ?_, anguloEntre_rayo_cero p1 v p2,
    fun c hc hne hx hy => anguloEntre_colineal p1 v p2 c hc hne hx hy⟩
  · rw [calcular_angulo_codo]
    split_ifs
    · norm_num
    · exact anguloEntre_nonneg _ _ _
  · rw [calcular_angulo_codo]
    split_ifs
    · norm_num
    · exact anguloEntre_le _ _ _
  · rw [calcular_angulo_codo, if_pos h17]

/-- C8 witness: the straight-arm conjuncts instantiated at the concrete
collinear triple (1,0), (0,0), (-1,0), plus the short-list fallback at the
empty list. -/
theorem C8_angulo_codo_witness :
    anguloEntre ⟨1, 0, 1⟩ ⟨0, 0, 1⟩ ⟨-1, 0, 1⟩ = 180 ∧
    calcular_angulo_codo [] = 180 :=
  ⟨(C8_angulo_codo ⟨1, 0, 1⟩ ⟨0, 0, 1⟩ ⟨-1, 0, 1⟩ []).2.2.2.2.2 1 (by norm_num)
      (by norm_num) (by norm_num) (by norm_num),
    (C8_angulo_codo ⟨1, 0, 1⟩ ⟨0, 0, 1⟩ ⟨-1, 0, 1⟩ []).2.2.2.1 (by norm_num)⟩
